import Mathlib

/-!
# Verification of the scheduled task-dispatch and delivery pipeline

Shallow embedding of the Telegram page-speed bot (producer, in-memory bot,
and RabbitMQ worker) together with proofs about the dispatch queue wire
format, the cron-based schedule matcher, the worker's per-entry handler,
and the `/schedule` command parser.
-/

namespace PageSpeedBot

/-! ## JSON values (wire format of the dispatch queue)

The producer serializes dispatch requests with `JSON.stringify({ url, chatId })`
(`producer.ts`, `sendToQueue`), and the worker recovers them with
`JSON.parse(msg.content.toString())`.  `JSON.stringify` / `JSON.parse` are
modelled at the level of JSON values: a queue message is the JSON value the
producer built, and parsing is the identity on that value. -/

/-- JSON value tree.  Numbers are modelled as integers: the only number that
travels on this wire is a Telegram chat id. -/
inductive Json where
  | str (s : String)
  | num (n : Int)
  | bool (b : Bool)
  | null
  | arr (elems : List Json)
  | obj (fields : List (String × Json))

/-- First-match field lookup in a JSON object's field list (the semantics of
JavaScript property access / destructuring on a parsed object). -/
def lookupField : List (String × Json) → String → Option Json
  | [], _ => none
  | (k, v) :: rest, key => if k = key then some v else lookupField rest key

/-- Property access `j.key`: `undefined` (here `none`) when `j` is not an
object or lacks the field. -/
def Json.getField : Json → String → Option Json
  | .obj fields, key => lookupField fields key
  | _, _ => none

/-- A dispatch request as it is enqueued: the `{ url, chatId }` record built
by `sendToQueue(url, chatId)` in `producer.ts`. -/
structure DispatchRequest where
  url : String
  chatId : Int
deriving DecidableEq

/-- The `sendToQueue`'s message body: `JSON.stringify({ url, chatId })`
(`producer.ts` lines 63–76), as a JSON value. -/
def sendToQueueMessage (url : String) (chatId : Int) : Json :=
  Json.obj [("url", Json.str url), ("chatId", Json.num chatId)]

/-- The wire encoding of a `DispatchRequest`. -/
def encodeDispatch (d : DispatchRequest) : Json :=
  sendToQueueMessage d.url d.chatId

/-- The worker's `const { url, chatId } = JSON.parse(msg.content.toString())`
(worker source, consume callback): extract the two fields of the parsed
message.  Returns `none` when either field is missing or of the wrong type. -/
def parseQueueMessage (j : Json) : Option DispatchRequest :=
  match j.getField "url", j.getField "chatId" with
  | some (Json.str u), some (Json.num c) => some ⟨u, c⟩
  | _, _ => none

/-- Claim C5: Enqueue followed by consume round-trips the payload: the worker
recovers exactly the `url` (subject) and `chatId` (requesterId) passed to
`sendToQueue`, and the wire record carries exactly those two fields. -/
theorem c5_queue_roundtrip (d : DispatchRequest) :
    parseQueueMessage (encodeDispatch d) = some d ∧
    ∃ fs, encodeDispatch d = Json.obj fs ∧ fs.map Prod.fst = ["url", "chatId"] := by
  refine ⟨?_, [("url", Json.str d.url), ("chatId", Json.num d.chatId)], rfl, rfl⟩
  simp [parseQueueMessage, encodeDispatch, sendToQueueMessage, Json.getField, lookupField]

/-! ## The analysis call: `checkPageSpeed` (worker source lines 27–73)

`checkPageSpeed(url)` launches a headless Chrome, runs Lighthouse inside a
`try`, rethrows any failure wrapped in a new message in the `catch`, and
kills Chrome in the `finally`.  The Lighthouse call and the report-file
write are external effects; their outcomes are inputs to the model. -/

/-- The metrics extracted from a Lighthouse result object (`runnerResult.lhr`).
The 0–1 performance score is modelled as an integer numerator out of 100;
the other metrics are the display strings Lighthouse produced. -/
structure LhReport where
  finalDisplayedUrl : String
  performanceScore : Option Int
  speedIndex : String
  firstContentfulPaint : String
  largestContentfulPaint : String
  timeToInteractive : String
deriving DecidableEq

/-- Outcome of `await lighthouse(url, …)`: it can reject, fulfil with a value
lacking `.lhr` (the code then throws "Lighthouse did not return a valid
result."), or fulfil with a result object. -/
inductive LhOutcome where
  | threw (e : String)
  | invalid
  | ok (lhr : LhReport)
deriving DecidableEq

/-- The result record `checkPageSpeed` builds from a valid Lighthouse result
(the `JSON.stringify` of this record is what the function returns; the
rendered string is represented by the record itself). -/
structure SpeedResult where
  url : String
  performanceScore : Int
  speedIndex : String
  firstContentfulPaint : String
  largestContentfulPaint : String
  timeToInteractive : String
deriving DecidableEq

/-- Metric extraction from a Lighthouse result:
`(report.categories.performance?.score ?? 0) * 100` and the display values. -/
def extractResult (lhr : LhReport) : SpeedResult :=
  { url := lhr.finalDisplayedUrl
    performanceScore := lhr.performanceScore.getD 0 * 100
    speedIndex := lhr.speedIndex
    firstContentfulPaint := lhr.firstContentfulPaint
    largestContentfulPaint := lhr.largestContentfulPaint
    timeToInteractive := lhr.timeToInteractive }

/-- Resource events of one `checkPageSpeed` call: the Chrome launch at entry
and the `chrome.kill()` in the `finally`. -/
inductive CPSEvent where
  | launched
  | killed
deriving DecidableEq

/-- The `try` body of `checkPageSpeed`: run Lighthouse, reject invalid
results, save the raw report (`fs.writeFileSync`, outcome `save`), and
return the extracted metrics.  An `Except.error` is a thrown exception. -/
def checkPageSpeedBody (lh : LhOutcome) (save : Except String Unit) :
    Except String SpeedResult :=
  match lh with
  | .threw e => .error e
  | .invalid => .error "Lighthouse did not return a valid result."
  | .ok lhr =>
    match save with
    | .error e => .error e
    | .ok _ => .ok (extractResult lhr)

/-- The call `checkPageSpeed(url)`: Chrome is launched, the body runs under a `catch`
that rethrows every error wrapped as
`Failed to analyze the page speed for <url>: <message>`, and the `finally`
kills Chrome on every exit path.  The second component is the ordered list
of resource events of the call. -/
def checkPageSpeed (url : String) (lh : LhOutcome) (save : Except String Unit) :
    Except String SpeedResult × List CPSEvent :=
  let caught : Except String SpeedResult :=
    match checkPageSpeedBody lh save with
    | .error e => .error ("Failed to analyze the page speed for " ++ url ++ ": " ++ e)
    | .ok v => .ok v
  (caught, [CPSEvent.launched, CPSEvent.killed])

/-! ## The worker's consume callback (worker source lines 95–113)

The callback parses the message, then inside a `try` runs
`checkPageSpeed`, `generatePDFReport`, `fs.writeFileSync`,
`bot.telegram.sendDocument`, `fs.unlinkSync`; the `catch` only logs; and
`channel.ack(msg)` runs after the `try`/`catch`, unconditionally.  The
outcomes of the five effectful steps are inputs to the model. -/

/-- Outcomes of the effectful steps of one entry's processing. -/
structure StepOutcomes where
  lighthouse : LhOutcome
  save : Except String Unit
  reportGen : Except String Unit
  fileWrite : Except String Unit
  delivery : Except String Unit
  cleanup : Except String Unit

/-- Observable events of one entry's processing, in order of occurrence. -/
inductive WEvent where
  | chromeLaunched
  | chromeKilled
  | reported
  | fileWritten
  | delivered
  | fileCleaned
  | errLogged
  | acked
  | nacked (requeue : Bool)
deriving DecidableEq

/-- An event that resolves a queue entry (`ack` or `nack`). -/
def isResolution : WEvent → Bool
  | .acked => true
  | .nacked _ => true
  | _ => false

/-- Lift a `checkPageSpeed` resource event into the worker event alphabet. -/
def liftCPS : CPSEvent → WEvent
  | .launched => WEvent.chromeLaunched
  | .killed => WEvent.chromeKilled

/-- The `try` body of the consume callback: events emitted so far paired with
`some e` when a step threw `e` (the exception propagating to the `catch`). -/
def consumeTryBody (url : String) (o : StepOutcomes) :
    List WEvent × Option String :=
  let cps := checkPageSpeed url o.lighthouse o.save
  let evs := cps.2.map liftCPS
  match cps.1 with
  | .error e => (evs, some e)
  | .ok _ =>
    match o.reportGen with
    | .error e => (evs, some e)
    | .ok _ =>
      match o.fileWrite with
      | .error e => (evs ++ [WEvent.reported], some e)
      | .ok _ =>
        match o.delivery with
        | .error e => (evs ++ [WEvent.reported, WEvent.fileWritten], some e)
        | .ok _ =>
          match o.cleanup with
          | .error e =>
            (evs ++ [WEvent.reported, WEvent.fileWritten, WEvent.delivered], some e)
          | .ok _ =>
            (evs ++ [WEvent.reported, WEvent.fileWritten, WEvent.delivered,
              WEvent.fileCleaned], none)

/-- The `catch (error) { console.error(error) }` block: any pending exception
is consumed and logged; nothing is rethrown. -/
def catchLogs (r : List WEvent × Option String) : List WEvent × Option String :=
  match r.2 with
  | some _ => (r.1 ++ [WEvent.errLogged], none)
  | none => r

/-- Result of running the consume callback on one message: the events it
emitted and the exception, if any, that escaped the callback. -/
structure HandlerRun where
  events : List WEvent
  escaped : Option String

/-- The string the worker would interpolate for the parsed `url` field (used
only inside `checkPageSpeed`'s wrapped error message). -/
def urlDisplay (content : Json) : String :=
  match content.getField "url" with
  | some (Json.str s) => s
  | _ => "undefined"

/-- The consume callback of `startWorker` on one queue message: destructure
the parsed content, run the `try`/`catch`, then `channel.ack(msg)`
unconditionally after the `catch`. -/
def consumeCallback (content : Json) (o : StepOutcomes) : HandlerRun :=
  let r := catchLogs (consumeTryBody (urlDisplay content) o)
  { events := r.1 ++ [WEvent.acked], escaped := r.2 }

/-- All five effectful steps of the entry succeeded (so the artifact was
delivered to the requester). -/
def deliverySucceeded (o : StepOutcomes) : Bool :=
  (match o.lighthouse with | .ok _ => true | _ => false) &&
  o.save.toBool && o.reportGen.toBool && o.fileWrite.toBool && o.delivery.toBool

/-- Claim C1, counterexample: A consumed entry whose analysis step fails is
still acknowledged: with Lighthouse rejecting, the callback never delivers
the artifact yet issues `ack`, refuting "if analysis, report generation, or
delivery fails, the entry is not acknowledged". -/
theorem c1_counterexample :
    WEvent.delivered ∉
      (consumeCallback (encodeDispatch ⟨"https://example.com", 42⟩)
        { lighthouse := .threw "network down", save := .ok (), reportGen := .ok (),
          fileWrite := .ok (), delivery := .ok (), cleanup := .ok () }).events ∧
    WEvent.acked ∈
      (consumeCallback (encodeDispatch ⟨"https://example.com", 42⟩)
        { lighthouse := .threw "network down", save := .ok (), reportGen := .ok (),
          fileWrite := .ok (), delivery := .ok (), cleanup := .ok () }).events := by
  decide

/-- Claim C1, amended: For every consumed entry the worker issues `ack`
exactly once, as the final action of the handler — hence after delivery
whenever delivery succeeded — but acknowledgment is unconditional: a failure
of analysis, report generation, or delivery is logged and the entry is
acknowledged anyway. -/
theorem c1_ack_after_processing (content : Json) (o : StepOutcomes) :
    (consumeCallback content o).events.count WEvent.acked = 1 ∧
    (consumeCallback content o).events.getLast? = some WEvent.acked ∧
    (WEvent.delivered ∈ (consumeCallback content o).events ↔
      deliverySucceeded o = true) := by
  obtain ⟨lh, sv, rg, fw, dl, cu⟩ := o
  cases lh <;> cases sv <;> cases rg <;> cases fw <;> cases dl <;> cases cu <;>
    simp [consumeCallback, consumeTryBody, catchLogs, checkPageSpeed,
      checkPageSpeedBody, liftCPS, deliverySucceeded, Except.toBool]

/-- Claim C3: Every consumed entry receives exactly one resolution on every
execution path of the per-entry handler, the error path included (it is
always `ack`; the worker never issues `nack`). -/
theorem c3_exactly_one_resolution (content : Json) (o : StepOutcomes) :
    (consumeCallback content o).events.countP (fun e => isResolution e) = 1 := by
  obtain ⟨lh, sv, rg, fw, dl, cu⟩ := o
  cases lh <;> cases sv <;> cases rg <;> cases fw <;> cases dl <;> cases cu <;>
    simp [consumeCallback, consumeTryBody, catchLogs, checkPageSpeed,
      checkPageSpeedBody, liftCPS, isResolution]

/-- Claim C6: Errors inside one entry's processing are contained: no exception
escapes the consume callback on any combination of step outcomes, and the
entry still reaches a resolution. -/
theorem c6_error_containment (content : Json) (o : StepOutcomes) :
    (consumeCallback content o).escaped = none ∧
    0 < (consumeCallback content o).events.countP (fun e => isResolution e) := by
  obtain ⟨lh, sv, rg, fw, dl, cu⟩ := o
  cases lh <;> cases sv <;> cases rg <;> cases fw <;> cases dl <;> cases cu <;>
    simp [consumeCallback, consumeTryBody, catchLogs, checkPageSpeed,
      checkPageSpeedBody, liftCPS, isResolution]

/-- Claim C7: The exclusive Chrome instance is released on every exit path:
`checkPageSpeed`'s final resource event is always the kill, and in the
handler's event trace Chrome is killed exactly once, strictly before the
`ack` that makes the worker eligible for the next entry. -/
theorem c7_chrome_released (content : Json) (o : StepOutcomes) :
    (checkPageSpeed (urlDisplay content) o.lighthouse o.save).2.getLast? =
      some CPSEvent.killed ∧
    (consumeCallback content o).events.count WEvent.chromeKilled = 1 ∧
    (consumeCallback content o).events.indexOf WEvent.chromeKilled <
      (consumeCallback content o).events.indexOf WEvent.acked := by
  obtain ⟨lh, sv, rg, fw, dl, cu⟩ := o
  cases lh <;> cases sv <;> cases rg <;> cases fw <;> cases dl <;> cases cu <;>
    simp [consumeCallback, consumeTryBody, catchLogs, checkPageSpeed,
      checkPageSpeedBody, liftCPS, List.indexOf, List.findIdx, List.findIdx.go] <;>
    decide

/-! ## The schedule matcher (producer.ts lines 131–151, index.ts lines 156–176)

A cron job fires every minute, takes the current hour and minute, and for
every stored schedule whose `(hour, minute)` equals the current wall-clock
minute emits one dispatch (via `sendToQueue` in the producer).  The
in-memory variant stores schedules in an object keyed by chat id, so chat
ids are unique across the store. -/

/-- A stored schedule row (`ScheduledReport` model in `producer.ts`; the
in-memory variant stores the same fields keyed by `chatId`). -/
structure ScheduledReport where
  chatId : Int
  url : String
  hour : Int
  minute : Int
deriving DecidableEq

/-- The matcher's per-schedule test: `hour === currentHour && minute ===
currentMinute` (also the `where` clause of the DB variant's `findAll`). -/
def matchesTime (h m : Int) (s : ScheduledReport) : Bool :=
  s.hour == h && s.minute == m

/-- The dispatch a matched schedule produces: `sendToQueue(report.url,
report.chatId)`. -/
def toDispatch (s : ScheduledReport) : DispatchRequest :=
  { url := s.url, chatId := s.chatId }

/-- One matcher tick at wall-clock time `h:m` over the stored schedules:
each matching schedule contributes one dispatch request. -/
def cronTick (store : List ScheduledReport) (h m : Int) : List DispatchRequest :=
  (store.filter (matchesTime h m)).map toDispatch

/-- Claim C2, counterexample: the DB-backed store admits several rows with
the same subject and requester (`ScheduledReport.create` runs on every
`/schedule` command with no uniqueness constraint).  With the matching
schedule stored twice, the tick at 09:30 emits its dispatch twice — not
exactly once — refuting the claim for such stores. -/
theorem c2_counterexample :
    matchesTime 9 30 (⟨42, "https://a.com", 9, 30⟩ : ScheduledReport) = true ∧
    (cronTick [⟨42, "https://a.com", 9, 30⟩,
        (⟨42, "https://a.com", 9, 30⟩ : ScheduledReport)] 9 30).count
      (toDispatch ⟨42, "https://a.com", 9, 30⟩) = 2 := by
  decide

/-- Claim C2, amended: at every tick the number of dispatches emitted with a
given subject and requesterId equals the number of stored schedules carrying
that subject and requesterId whose hour and minute equal the current
wall-clock minute.  In particular a schedule that is the sole bearer of its
subject and requesterId yields exactly one dispatch iff it matches and zero
otherwise, while duplicate rows yield one dispatch each. -/
theorem c2_emission_count (store : List ScheduledReport) (h m : Int)
    (d : DispatchRequest) :
    (cronTick store h m).count d =
      store.countP (fun s => toDispatch s == d && matchesTime h m s) := by
  induction store with
  | nil => rfl
  | cons a rest ih =>
    by_cases hmt : matchesTime h m a
    · by_cases hd : toDispatch a = d
      · simp [cronTick, List.filter_cons, hmt, List.count_cons, hd,
          List.countP_cons] at ih ⊢
        simpa [cronTick] using ih
      · simp [cronTick, List.filter_cons, hmt, List.count_cons, hd,
          List.countP_cons] at ih ⊢
        simpa [cronTick] using ih
    · simp [cronTick, List.filter_cons, hmt, List.countP_cons] at ih ⊢
      simpa [cronTick] using ih

/-! ### Per-schedule failure isolation in one tick (producer.ts lines 143–150)

Each matched schedule's `sendToQueue` runs in its own `try`/`catch` that
logs and continues, so the loop attempts every match no matter which
enqueues fail.  Enqueue outcomes are an input to the model. -/

/-- Events of one tick: an enqueue attempt for a dispatch, or the logged
failure of one attempt. -/
inductive TickEvent where
  | attempted (d : DispatchRequest)
  | failLogged (d : DispatchRequest)
deriving DecidableEq

/-- One matcher tick with explicit enqueue outcomes (`ok d = false` means
`sendToQueue` threw for that dispatch): every match is attempted; a failed
attempt is logged and iteration continues with the next match. -/
def cronTickRun (store : List ScheduledReport) (h m : Int)
    (ok : DispatchRequest → Bool) : List TickEvent :=
  (store.filter (matchesTime h m)).flatMap fun s =>
    if ok (toDispatch s) then [TickEvent.attempted (toDispatch s)]
    else [TickEvent.attempted (toDispatch s), TickEvent.failLogged (toDispatch s)]

/-- The enqueue attempts recorded in a list of tick events, in order. -/
def attemptsOf (evs : List TickEvent) : List DispatchRequest :=
  evs.filterMap fun e =>
    match e with
    | TickEvent.attempted d => some d
    | TickEvent.failLogged _ => none

/-- Claim C8: Per-schedule failures are isolated: whatever subset of enqueues
fails, the tick attempts exactly the dispatches of all matching schedules,
in store order — one schedule's failure never prevents the others. -/
theorem c8_tick_failure_isolation (store : List ScheduledReport) (h m : Int)
    (ok : DispatchRequest → Bool) :
    attemptsOf (cronTickRun store h m ok) = cronTick store h m := by
  induction store with
  | nil => rfl
  | cons a rest ih =>
    by_cases hmt : matchesTime h m a
    · by_cases hok : ok (toDispatch a) <;>
        simp [cronTickRun, cronTick, List.filter_cons, hmt, hok, attemptsOf] at ih ⊢ <;>
        simpa [cronTickRun, cronTick, attemptsOf] using ih
    · simp [cronTickRun, cronTick, List.filter_cons, hmt, attemptsOf] at ih ⊢
      simpa [cronTickRun, cronTick, attemptsOf] using ih

/-! ## Prefetch-1 consumption (worker source lines 85–114)

`startWorker` subscribes with `channel.prefetch(1)`.  Modelled from the
spec: the broker itself is external to the repository, and the spec fixes
its contract — "the broker must not deliver a second entry to the same
worker until the first is acknowledged or explicitly requeued".  The
transition system below has exactly that delivery guard; resolutions cover
`ack`, `nack(requeue=false)` (entry gone) and `nack(requeue=true)` (entry
back in the queue). -/

/-- State of one worker's subscription: the entries still queued, the at
most one delivered-but-unresolved entry (prefetch=1), the entries whose
processing has begun, and the entries that have received a resolution. -/
structure WorkerSys where
  pending : List Nat
  inFlight : Option Nat
  started : List Nat
  resolved : List Nat
deriving DecidableEq

/-- Transitions of the prefetch-1 subscription. -/
inductive WStep : WorkerSys → WorkerSys → Prop where
  | deliver (s : WorkerSys) (e : Nat) (rest : List Nat)
      (hIdle : s.inFlight = none) (hHead : s.pending = e :: rest) :
      WStep s ⟨rest, some e, s.started ++ [e], s.resolved⟩
  | resolve (s : WorkerSys) (e : Nat) (hBusy : s.inFlight = some e) :
      WStep s ⟨s.pending, none, s.started, s.resolved ++ [e]⟩
  | requeue (s : WorkerSys) (e : Nat) (hBusy : s.inFlight = some e) :
      WStep s ⟨s.pending ++ [e], none, s.started, s.resolved ++ [e]⟩

/-- Reflexive-transitive closure of `WStep`. -/
inductive WReach : WorkerSys → WorkerSys → Prop where
  | refl (s : WorkerSys) : WReach s s
  | step {s t u : WorkerSys} : WReach s t → WStep t u → WReach s u

/-- The queue state after enqueueing `e1` then `e2` with an idle consumer. -/
def twoQueued (e1 e2 : Nat) : WorkerSys :=
  ⟨[e1, e2], none, [], []⟩

/-- Invariant of runs from `twoQueued`: until `e1` is resolved, `e2` has not
started — the system is still in one of the two pre-resolution shapes. -/
def SeqInv (e1 e2 : Nat) (s : WorkerSys) : Prop :=
  e1 ∈ s.resolved ∨
    (s.pending = [e1, e2] ∧ s.inFlight = none ∧ s.started = []) ∨
    (s.pending = [e2] ∧ s.inFlight = some e1 ∧ s.started = [e1])

/-- The invariant `SeqInv` is preserved by every transition. -/
theorem seqInv_step (e1 e2 : Nat) (s t : WorkerSys) (hInv : SeqInv e1 e2 s)
    (hStep : WStep s t) : SeqInv e1 e2 t := by
  rcases hInv with hres | hA | hB
  · cases hStep with
    | deliver e rest hIdle hHead => exact Or.inl hres
    | resolve e hBusy => exact Or.inl (List.mem_append_left _ hres)
    | requeue e hBusy => exact Or.inl (List.mem_append_left _ hres)
  · obtain ⟨hp, hf, hs⟩ := hA
    cases hStep with
    | deliver e rest hIdle hHead =>
      right; right
      rw [hp] at hHead
      cases hHead
      simp [hs]
    | resolve e hBusy => rw [hf] at hBusy; cases hBusy
    | requeue e hBusy => rw [hf] at hBusy; cases hBusy
  · obtain ⟨hp, hf, hs⟩ := hB
    cases hStep with
    | deliver e rest hIdle hHead => rw [hf] at hIdle; cases hIdle
    | resolve e hBusy =>
      rw [hf] at hBusy
      cases hBusy
      exact Or.inl (by simp)
    | requeue e hBusy =>
      rw [hf] at hBusy
      cases hBusy
      exact Or.inl (by simp)

/-- The invariant `SeqInv` holds in every state reachable from `twoQueued`. -/
theorem seqInv_reach (e1 e2 : Nat) (s : WorkerSys)
    (h : WReach (twoQueued e1 e2) s) : SeqInv e1 e2 s := by
  induction h with
  | refl => exact Or.inr (Or.inl ⟨rfl, rfl, rfl⟩)
  | step hr hstep ih => exact seqInv_step e1 e2 _ _ ih hstep

/-- Claim C4: Single-concurrency: with two distinct entries enqueued and one
prefetch-1 consumer, in every reachable state in which processing of the
second entry has begun, the first entry has already been acknowledged or
requeued. -/
theorem c4_sequential_processing (e1 e2 : Nat) (hne : e1 ≠ e2) (s : WorkerSys)
    (hreach : WReach (twoQueued e1 e2) s) (hstart : e2 ∈ s.started) :
    e1 ∈ s.resolved := by
  rcases seqInv_reach e1 e2 s hreach with hres | hA | hB
  · exact hres
  · rw [hA.2.2] at hstart
    cases hstart
  · rw [hB.2.2] at hstart
    rcases List.mem_singleton.mp hstart with h
    exact absurd h.symm hne

/-- Claim C4, witness: A concrete four-step run: deliver entry 0, ack it,
deliver entry 1 — entry 1's processing has begun and entry 0 is resolved. -/
theorem c4_sequential_processing_witness :
    (0 : Nat) ∈ (⟨[], some 1, [0, 1], [0]⟩ : WorkerSys).resolved := by
  have h1 : WStep (twoQueued 0 1) ⟨[1], some 0, [0], []⟩ := by
    have := WStep.deliver (twoQueued 0 1) 0 [1] rfl rfl
    simpa [twoQueued] using this
  have h2 : WStep (⟨[1], some 0, [0], []⟩ : WorkerSys) ⟨[1], none, [0], [0]⟩ := by
    have := WStep.resolve (⟨[1], some 0, [0], []⟩ : WorkerSys) 0 rfl
    simpa using this
  have h3 : WStep (⟨[1], none, [0], [0]⟩ : WorkerSys) ⟨[], some 1, [0, 1], [0]⟩ := by
    have := WStep.deliver (⟨[1], none, [0], [0]⟩ : WorkerSys) 1 [] rfl rfl
    simpa using this
  exact c4_sequential_processing 0 1 (by decide) _
    (WReach.step (WReach.step (WReach.step (WReach.refl _) h1) h2) h3) (by decide)

/-! ## The `/schedule` command handler (producer.ts lines 111–128, index.ts
lines 142–153)

```
const [command, url, time] = ctx.message.text.split(' ');
const [hour, minute] = time.split(':').map(Number);
if (!url || isNaN(hour) || isNaN(minute)) { return ctx.reply('Usage: …'); }
// store { chatId, url, hour, minute }
```

`String.prototype.split` with a one-character separator and `Number` are
modelled character by character below. -/

/-- JavaScript `s.split(sep)` for a one-character separator, on the
character list: every occurrence of `sep` ends a segment, and the empty
string splits to `[""]`. -/
def charSplit (sep : Char) : List Char → List (List Char)
  | [] => [[]]
  | c :: rest =>
    let r := charSplit sep rest
    if c = sep then [] :: r
    else
      match r with
      | [] => [[c]]
      | g :: gs => (c :: g) :: gs

/-- JavaScript `s.split(sep)` for a one-character separator. -/
def jsSplit (sep : Char) (s : String) : List String :=
  (charSplit sep s.data).map String.mk

/-- Whitespace stripped by `Number`'s string conversion (the forms relevant
to command text). -/
def jsWhitespace (c : Char) : Bool :=
  c = ' ' || c = '\t' || c = '\n' || c = '\r'

/-- Strip leading and trailing whitespace. -/
def charTrim (cs : List Char) : List Char :=
  ((cs.dropWhile jsWhitespace).reverse.dropWhile jsWhitespace).reverse

/-- Value of a nonempty all-digit character list, `none` otherwise. -/
def parseDecimal (cs : List Char) : Option Nat :=
  if cs ≠ [] ∧ cs.all Char.isDigit then
    some (cs.foldl (fun acc c => acc * 10 + (c.toNat - 48)) 0)
  else none

/-- JavaScript `Number(x)` on the token space of the `/schedule` handler,
with `none` playing NaN: `Number(undefined)` is NaN, a whitespace-only
string converts to `0`, an optionally signed decimal integer converts to
its value, and any other string is NaN.  (Fractional, hexadecimal and
exponent literals, which `Number` also accepts, do not occur in `HH:MM`
tokens and are mapped to NaN.) -/
def jsNumber : Option String → Option Int
  | none => none
  | some s =>
    match charTrim s.data with
    | [] => some 0
    | '-' :: rest => (parseDecimal rest).map fun n => -(n : Int)
    | '+' :: rest => (parseDecimal rest).map fun n => (n : Int)
    | cs => (parseDecimal cs).map fun n => (n : Int)

/-- JavaScript truthiness of the destructured `url` token: `undefined` and
the empty string are falsy. -/
def urlTruthy : Option String → Bool
  | none => false
  | some u => u != ""

/-- Observable outcome of one `/schedule` command. -/
inductive SchedOutcome where
  | typeError
  | usageReply
  | stored (s : ScheduledReport)
deriving DecidableEq

/-- The `/schedule` handler on the raw message text: destructure the
space-split tokens, split the time token on `':'` (a `TypeError` when the
token is `undefined`), convert with `Number`, reply with the usage line when
the url is falsy or a component is NaN, and otherwise store the schedule. -/
def scheduleHandler (text : String) (chatId : Int) : SchedOutcome :=
  let tokens := jsSplit ' ' text
  let url? := tokens[1]?
  match tokens[2]? with
  | none => SchedOutcome.typeError
  | some time =>
    let parts := jsSplit ':' time
    let hour? := jsNumber parts[0]?
    let minute? := jsNumber parts[1]?
    if !(urlTruthy url?) || hour?.isNone || minute?.isNone then
      SchedOutcome.usageReply
    else
      SchedOutcome.stored ⟨chatId, url?.getD "", hour?.getD 0, minute?.getD 0⟩

/-- Claim C9, counterexample: `/schedule http://x 25:61` is accepted and
stored with hour 25 and minute 61 — outside 0–23 / 0–59 — so out-of-range
inputs are not rejected. -/
theorem c9_counterexample :
    scheduleHandler "/schedule http://x 25:61" 7 =
      SchedOutcome.stored ⟨7, "http://x", 25, 61⟩ ∧
    ¬((25 : Int) ≤ 23) ∧ ¬((61 : Int) ≤ 59) := by
  refine ⟨?_, by decide, by decide⟩
  decide

/-- Claim C9, amended: Every Schedule accepted and stored by the `/schedule`
handler has a nonempty url token and hour/minute equal to the `Number`
values of the present time components (in particular they are numeric, not
NaN); no range restriction on hour or minute is enforced. -/
theorem c9_stored_characterization (text : String) (chatId : Int)
    (s : ScheduledReport)
    (h : scheduleHandler text chatId = SchedOutcome.stored s) :
    s.chatId = chatId ∧ (jsSplit ' ' text)[1]? = some s.url ∧ s.url ≠ "" ∧
    ∃ time, (jsSplit ' ' text)[2]? = some time ∧
      jsNumber (jsSplit ':' time)[0]? = some s.hour ∧
      jsNumber (jsSplit ':' time)[1]? = some s.minute := by
  simp only [scheduleHandler] at h
  cases ht : (jsSplit ' ' text)[2]? with
  | none =>
    rw [ht] at h
    exact absurd h (by simp)
  | some time =>
    rw [ht] at h
    dsimp only at h
    cases hu : (jsSplit ' ' text)[1]? with
    | none =>
      rw [hu] at h
      simp [urlTruthy] at h
    | some u =>
      rw [hu] at h
      cases hh : jsNumber (jsSplit ':' time)[0]? with
      | none =>
        rw [hh] at h
        simp [urlTruthy] at h
      | some hv =>
        rw [hh] at h
        cases hm : jsNumber (jsSplit ':' time)[1]? with
        | none =>
          rw [hm] at h
          simp [urlTruthy] at h
        | some mv =>
          rw [hm] at h
          by_cases hue : u = ""
          · subst hue
            simp [urlTruthy] at h
          · have hcond : urlTruthy (some u) = true := by
              simp [urlTruthy, hue]
            rw [hcond] at h
            simp only [Bool.not_true, Option.isNone_some, Bool.or_self,
              Bool.or_false, Bool.false_or, if_false, ite_false,
              Bool.false_eq_true] at h
            have hs : (⟨chatId, u, hv, mv⟩ : ScheduledReport) = s := by
              simpa [Option.getD] using h
            subst hs
            exact ⟨rfl, rfl, by simpa using hue, time, rfl,
              by simpa using hh, by simpa using hm⟩

/-- Claim C9, witness: The characterization applied to the stored command
`/schedule http://x 9:30`. -/
theorem c9_stored_characterization_witness :
    (⟨3, "http://x", 9, 30⟩ : ScheduledReport).chatId = 3 ∧
    (jsSplit ' ' "/schedule http://x 9:30")[1]? =
      some (⟨3, "http://x", 9, 30⟩ : ScheduledReport).url ∧
    (⟨3, "http://x", 9, 30⟩ : ScheduledReport).url ≠ "" ∧
    ∃ time, (jsSplit ' ' "/schedule http://x 9:30")[2]? = some time ∧
      jsNumber (jsSplit ':' time)[0]? =
        some (⟨3, "http://x", 9, 30⟩ : ScheduledReport).hour ∧
      jsNumber (jsSplit ':' time)[1]? =
        some (⟨3, "http://x", 9, 30⟩ : ScheduledReport).minute :=
  c9_stored_characterization "/schedule http://x 9:30" 3 ⟨3, "http://x", 9, 30⟩
    (by decide)

/-- Claim C10, counterexample: The usage reply is reachable without any NaN
time component: on `/schedule␣␣9:30` (two spaces, so the url token is the
empty string) the time token is present, its hour and minute both convert
to numbers, yet the handler replies with the usage line.  This refutes
"the usage reply is only reachable when a time token is present but its
hour or minute parses to NaN". -/
theorem c10_counterexample :
    scheduleHandler "/schedule  9:30" 1 = SchedOutcome.usageReply ∧
    (jsSplit ' ' "/schedule  9:30")[2]? = some "9:30" ∧
    jsNumber (jsSplit ':' "9:30")[0]? = some 9 ∧
    jsNumber (jsSplit ':' "9:30")[1]? = some 30 := by
  decide

/-- Claim C10, amended: With fewer than three space-separated tokens the
handler hits a `TypeError` splitting the undefined time token before the
usage validation runs; and the usage reply is reachable exactly when a time
token is present and either the url token is falsy (missing or empty) or
the hour or minute converts to NaN. -/
theorem c10_usage_reachability (text : String) (chatId : Int) :
    ((jsSplit ' ' text).length < 3 →
      scheduleHandler text chatId = SchedOutcome.typeError) ∧
    (scheduleHandler text chatId = SchedOutcome.usageReply ↔
      ∃ time, (jsSplit ' ' text)[2]? = some time ∧
        (urlTruthy (jsSplit ' ' text)[1]? = false ∨
         jsNumber (jsSplit ':' time)[0]? = none ∨
         jsNumber (jsSplit ':' time)[1]? = none)) := by
  cases ht : (jsSplit ' ' text)[2]? with
  | none =>
    constructor
    · intro hlen
      simp only [scheduleHandler]
      rw [ht]
    · constructor
      · intro hu
        simp only [scheduleHandler] at hu
        rw [ht] at hu
        exact absurd hu (by simp)
      · rintro ⟨time, htime, hdisj⟩
        exact absurd htime (by simp)
  | some time =>
    constructor
    · intro hlen
      have : (jsSplit ' ' text)[2]? = none := List.getElem?_eq_none (by omega)
      rw [this] at ht
      cases ht
    · simp only [scheduleHandler]
      rw [ht]
      dsimp only
      by_cases hc : (!(urlTruthy (jsSplit ' ' text)[1]?)
          || (jsNumber (jsSplit ':' time)[0]?).isNone
          || (jsNumber (jsSplit ':' time)[1]?).isNone) = true
      · rw [if_pos hc]
        simp only [Bool.or_eq_true, Bool.not_eq_true', Option.isNone_iff_eq_none,
          or_assoc] at hc
        simp only [true_iff]
        exact ⟨time, rfl, hc⟩
      · rw [if_neg hc]
        simp only [Bool.or_eq_true, Bool.not_eq_true', Option.isNone_iff_eq_none,
          or_assoc, not_or] at hc
        constructor
        · intro hfalse
          cases hfalse
        · rintro ⟨t, hts, hdisj⟩
          cases hts
          rcases hdisj with hd | hd | hd
          · exact absurd hd hc.1
          · exact absurd hd hc.2.1
          · exact absurd hd hc.2.2

/-- Claim C10, witness: `/schedule` alone has one token, and the handler
indeed hits the `TypeError` rather than the usage reply. -/
theorem c10_usage_reachability_witness :
    scheduleHandler "/schedule" 5 = SchedOutcome.typeError :=
  (c10_usage_reachability "/schedule" 5).1 (by decide)

end PageSpeedBot
